import Mathlib

/-!
Verification development for the Seattle illegal-dumping star-schema builder
(scripts/build_star_schema_documented.py).  Pandas cells are modelled as
`Option Str` (`none` = NA), text as lists of characters, floating-point
coordinates as exact decimal fractions, and dataframes as lists of row
structures plus a record of which named columns exist in the input file.
-/

/-- Text cells are modelled as lists of characters (`none` stands for pandas NA). -/
abbrev Str := List Char

/-- Lowercase-to-uppercase letter table of Python str.upper, restricted to
the ASCII alphabet (the domain's data). -/
def upPairs : List (Char × Char) :=
  [('a','A'), ('b','B'), ('c','C'), ('d','D'), ('e','E'), ('f','F'), ('g','G'),
   ('h','H'), ('i','I'), ('j','J'), ('k','K'), ('l','L'), ('m','M'), ('n','N'),
   ('o','O'), ('p','P'), ('q','Q'), ('r','R'), ('s','S'), ('t','T'), ('u','U'),
   ('v','V'), ('w','W'), ('x','X'), ('y','Y'), ('z','Z')]

/-- Models Python str.upper on a single character; characters outside the
table are left unchanged. -/
def upChar (c : Char) : Char :=
  ((upPairs.find? fun q => q.1 == c).map Prod.snd).getD c

/-- Models pandas .str.upper(). -/
def upStr (s : Str) : Str := s.map upChar

/-- Drops trailing whitespace (the tail half of Python str.strip). -/
def dropEndWs (s : Str) : Str := ((s.reverse.dropWhile Char.isWhitespace)).reverse

/-- Models Python str.strip / pandas .str.strip(): remove leading and trailing
whitespace. -/
def strip (s : Str) : Str := dropEndWs (s.dropWhile Char.isWhitespace)

/-- Models the .replace({"None": NA, "nan": NA, "": NA}) step shared by
std_text and std_upper_key: an exact whole-value match against the three
no-value markers becomes NA. -/
def replaceMarkers (s : Str) : Option Str :=
  if s = "None".toList then none
  else if s = "nan".toList then none
  else if s = [] then none
  else some s

/-- std_text (script lines 37-51): astype("string"), .str.strip(), then the
marker replace.  NA propagates through the string accessors. -/
def std_text (v : Option Str) : Option Str :=
  v.bind fun s => replaceMarkers (strip s)

/-- std_upper_key (script lines 54-71): astype("string"), .str.upper(),
.str.strip(), then the marker replace. -/
def std_upper_key (v : Option Str) : Option Str :=
  v.bind fun s => replaceMarkers (strip (upStr s))

/-- Character class kept by the regex replacement r"[^A-Z0-9 ]+" -> "". -/
def isAlnumSpace (c : Char) : Bool :=
  (decide ('A' ≤ c) && decide (c ≤ 'Z')) ||
  (decide ('0' ≤ c) && decide (c ≤ '9')) || decide (c = ' ')

/-- Models .str.replace(r"[^A-Z0-9 ]+", "", regex=True): delete every
character outside [A-Z0-9 ]. -/
def filterAlnum (s : Str) : Str := s.filter isAlnumSpace

/-- Worker for collapseWs; the flag records whether the previous character
was inside a whitespace run (whose single replacement space was already
emitted). -/
def collapseGo : Bool → List Char → List Char
  | _, [] => []
  | true, c :: cs =>
    if c.isWhitespace then collapseGo true cs else c :: collapseGo false cs
  | false, c :: cs =>
    if c.isWhitespace then ' ' :: collapseGo true cs else c :: collapseGo false cs

/-- Models .str.replace(r"\s+", " ", regex=True): every maximal whitespace
run becomes a single space. -/
def collapseWs (s : Str) : Str := collapseGo false s

/-- Address normalization used as the fallback key in build_location_key
(script lines 95-102): upper, strip non-[A-Z0-9 ] characters, collapse
whitespace, strip, then the marker replace. -/
def normalizeAddress (loc : Option Str) : Option Str :=
  loc.bind fun s => replaceMarkers (strip (collapseWs (filterAlnum (upStr s))))

/-- Numeric value of a list of decimal digit characters. -/
def digitsToNat (cs : List Char) : ℕ :=
  cs.foldl (fun a c => a * 10 + (c.toNat - 48)) 0

/-- Exact numeric cell value num/den, as parsed (den is the positive power
of ten given by the decimal places).  The companions NumVal.isZero and
round4 below are the only value observations the pipeline makes. -/
structure NumVal where
  num : Int
  den : ℕ
deriving DecidableEq

/-- Whether a parsed numeric value equals exactly zero (the float
comparison lat_num == 0 of the source). -/
def NumVal.isZero (v : NumVal) : Bool := v.num == 0

/-- The (0,0)-mask test on one possibly-absent cell; an absent value never
compares equal to zero, as with NaN in the source. -/
def isZeroCell (v : Option NumVal) : Bool :=
  match v with
  | some d => d.isZero
  | none => false

/-- Parses an unsigned decimal numeral (digits, optionally with one decimal
point); any other shape is not a number. -/
def parseUnsigned (cs : List Char) : Option NumVal :=
  match cs.dropWhile (fun c => !(c = '.')) with
  | [] =>
    if cs ≠ [] ∧ cs.all Char.isDigit then some ⟨digitsToNat cs, 1⟩ else none
  | _ :: frac =>
    if (cs.takeWhile (fun c => !(c = '.'))).all Char.isDigit ∧
        frac.all Char.isDigit ∧ frac.all (fun c => !(c = '.')) ∧
        ((cs.takeWhile fun c => !(c = '.')) ≠ [] ∨ frac ≠ []) then
      some ⟨(digitsToNat (cs.takeWhile fun c => !(c = '.')) * 10 ^ frac.length
        + digitsToNat frac : ℕ), 10 ^ frac.length⟩
    else none

/-- Models pd.to_numeric(errors="coerce") on one cell, for plain signed
decimal numerals (scientific notation is outside the modelled domain):
unparsable input becomes absent, never a default. -/
def parseNum (s : Str) : Option NumVal :=
  match strip s with
  | '-' :: rest => (parseUnsigned rest).map fun v => ⟨-v.num, v.den⟩
  | '+' :: rest => parseUnsigned rest
  | rest => parseUnsigned rest

/-- Models the external datetime parser (pd.to_datetime with
errors="coerce").  Calendar values are abstracted as integers; every claim
depends only on the parsed-or-absent dichotomy, not on date arithmetic. -/
def parseDate (s : Str) : Option Int :=
  (parseNum s).bind fun v => if v.den = 1 then some v.num else none

/-- Models Series.round(4): the integer ⌊value * 10^4 + 1/2⌋ representing
the coordinate rounded to four decimal places, computed exactly (ties round
up; the claims never depend on tie behaviour). -/
def round4 (v : NumVal) : Int :=
  Int.fdiv (2 * v.num * 10000 + (v.den : Int)) (2 * (v.den : Int))

/-- Coordinate-form location key "{lat},{lon}" (script lines 120-123) from
the two rounded values: an injective stand-in for the float-to-string
conversion lat_round.astype("string"). -/
def geoKey (lat lon : Int) : Str := (toString lat).toList ++ ',' :: (toString lon).toList

/-- Core of build_location_key (script lines 74-126) after pd.to_numeric has
run: mask the (0,0) placeholder to absent, round to 4 decimals, use the
coordinate key when both rounded values exist, otherwise fall back to the
normalized address. -/
def build_location_key_num (location : Option Str) (latNum lonNum : Option NumVal) :
    Option Str :=
  match (if isZeroCell latNum && isZeroCell lonNum then none else latNum).map round4,
        (if isZeroCell latNum && isZeroCell lonNum then none else lonNum).map round4 with
  | some a, some b => some (geoKey a b)
  | some _, none => normalizeAddress location
  | none, _ => normalizeAddress location

/-- build_location_key on raw cells: lines 105-106 coerce latitude and
longitude with pd.to_numeric(errors="coerce") before the key derivation. -/
def build_location_key (location lat lon : Option Str) : Option Str :=
  build_location_key_num location (lat.bind parseNum) (lon.bind parseNum)

/-- Modelled from the spec (section 3, Location Key and section 4.2): the
ordered derivation rule written from the spec's words, for comparison with
build_location_key.  Step b is specNormalizeAddress below. -/
def specNormalizeAddress (loc : Option Str) : Option Str :=
  loc.bind fun s =>
    if strip (collapseWs (filterAlnum (upStr s))) = [] then none
    else some (strip (collapseWs (filterAlnum (upStr s))))

/-- Modelled from the spec: ordered Location Key derivation — coordinate key
when both parsed coordinates are present and not exactly (0,0), else the
normalized address if non-empty, else absent. -/
def locationKeySpec (loc : Option Str) (latNum lonNum : Option NumVal) : Option Str :=
  match latNum, lonNum with
  | some a, some b =>
    if a.num = 0 ∧ b.num = 0 then specNormalizeAddress loc
    else some (geoKey (round4 a) (round4 b))
  | some _, none => specNormalizeAddress loc
  | none, _ => specNormalizeAddress loc

/-- Models Series.str.extract(r"(\d{5})"): the first run of five consecutive
decimal digits anywhere in the value, or absent. -/
def extract5 : List Char → Option (List Char)
  | [] => none
  | c :: cs =>
    if c.isDigit && ((cs.take 4).all Char.isDigit && decide ((cs.take 4).length = 4)) then
      some (c :: cs.take 4)
    else extract5 cs

/-- Which named columns exist in the input file.  The script accesses
Service Request Number and Created Date only through guarded .get calls, so
for those two columns "column missing" is observationally the same as
"every cell NA" and no flag is needed; the ten flagged columns either feed
the unguarded dim_location projection or are targets of the guarded
fillna("Unknown") step, where column absence is observable. -/
structure ColPresence where
  hasMethodReceived : Bool
  hasStatus : Bool
  hasPolicePrecinct : Bool
  hasCouncilDistrict : Bool
  hasZipCode : Bool
  hasViolationLocatedAt : Bool
  hasDumpingDescription : Bool
  hasLocation : Bool
  hasLatitude : Bool
  hasLongitude : Bool
deriving DecidableEq

/-- One raw CSV record (all cells loosely typed text; none = NA).  The
dropped Community Reporting Area column and the derived Year/Month/Day/
Weekday/Hour columns are omitted: nothing downstream of load_and_clean
consumes them. -/
structure RawRow where
  serviceRequestNumber : Option Str
  createdDate : Option Str
  methodReceived : Option Str
  status : Option Str
  policePrecinct : Option Str
  councilDistrict : Option Str
  zipCode : Option Str
  violationLocatedAt : Option Str
  dumpingDescription : Option Str
  location : Option Str
  latitude : Option Str
  longitude : Option Str
deriving DecidableEq

/-- One canonical record after load_and_clean. -/
structure CleanRow where
  serviceRequestNumber : Option Str
  createdDate : Option Int
  methodReceived : Option Str
  status : Option Str
  policePrecinct : Option Str
  councilDistrict : Option NumVal
  zipCode : Option Str
  violationLocatedAt : Option Str
  dumpingDescription : Option Str
  location : Option Str
  latitude : Option NumVal
  longitude : Option NumVal
deriving DecidableEq

/-- Raw input table: the header-driven column set plus the records. -/
structure RawTable where
  pres : ColPresence
  rows : List RawRow

/-- Cleaned table handed to the Dimensional Modeler. -/
structure CleanTable where
  pres : ColPresence
  rows : List CleanRow

/-- The literal fallback written into categorical nulls (line 243). -/
def unknownText : Str := "Unknown".toList

/-- Field-level cleaning of one record (load_and_clean, lines 160-256):
dates parsed with coercion, ZIP extracted as the first 5-digit run, council
district numerically coerced, coordinates numerically coerced with the
(0,0) pair masked to absent when both columns exist, every text column
passed through std_text, and the fixed categorical columns null-filled with
"Unknown" when the column exists.  A missing column yields an absent field
(its RawRow cell is never read). -/
def cleanRow (p : ColPresence) (r : RawRow) : CleanRow :=
  { serviceRequestNumber := std_text r.serviceRequestNumber
    createdDate := r.createdDate.bind parseDate
    methodReceived :=
      if p.hasMethodReceived then some ((std_text r.methodReceived).getD unknownText)
      else none
    status :=
      if p.hasStatus then some ((std_text r.status).getD unknownText) else none
    policePrecinct :=
      if p.hasPolicePrecinct then some ((std_text r.policePrecinct).getD unknownText)
      else none
    councilDistrict :=
      if p.hasCouncilDistrict then r.councilDistrict.bind parseNum else none
    zipCode := if p.hasZipCode then std_text (r.zipCode.bind extract5) else none
    violationLocatedAt :=
      if p.hasViolationLocatedAt then
        some ((std_text r.violationLocatedAt).getD unknownText)
      else none
    dumpingDescription :=
      if p.hasDumpingDescription then
        some ((std_text r.dumpingDescription).getD unknownText)
      else none
    location :=
      if p.hasLocation then some ((std_text r.location).getD unknownText) else none
    latitude :=
      if p.hasLatitude && p.hasLongitude && isZeroCell (r.latitude.bind parseNum) &&
          isZeroCell (r.longitude.bind parseNum) then none
      else if p.hasLatitude then r.latitude.bind parseNum else none
    longitude :=
      if p.hasLatitude && p.hasLongitude && isZeroCell (r.latitude.bind parseNum) &&
          isZeroCell (r.longitude.bind parseNum) then none
      else if p.hasLongitude then r.longitude.bind parseNum else none }

/-- load_and_clean: row-wise cleaning; no rows are dropped and no columns
are added among the flagged ones. -/
def load_and_clean (t : RawTable) : CleanTable :=
  { pres := t.pres, rows := t.rows.map (cleanRow t.pres) }

/-- One fact-table row (build_star_schema lines 331-352).  CreatedDate is
the midnight-normalized copy of CreatedDateTime; at the integer day
abstraction used for dates the normalization is the identity. -/
structure FactRow where
  serviceRequestNumber : Option Str
  createdDateTime : Option Int
  createdDate : Option Int
  methodReceived : Option Str
  status : Option Str
  policePrecinct : Option Str
  councilDistrict : Option NumVal
  zipCode : Option Str
  violationLocatedAt : Option Str
  dumpingDescription : Option Str
  locationKey : Option Str
  categoryKey : Option Str
deriving DecidableEq

/-- One dim_location row (lines 376-394). -/
structure LocationRow where
  locationKey : Option Str
  location : Option Str
  latitude : Option NumVal
  longitude : Option NumVal
  zipCode : Option Str
  policePrecinct : Option Str
  councilDistrict : Option NumVal
deriving DecidableEq

/-- One dim_category row (lines 400-413). -/
structure CategoryRow where
  violationLocatedAt : Option Str
  dumpingDescription : Option Str
  categoryKey : Option Str
deriving DecidableEq

/-- CategoryKey as computed in the fact projection (lines 349-352):
std_upper_key of each component joined with "|"; NA propagates through the
string concatenation. -/
def factCategoryKey (v d : Option Str) : Option Str :=
  match std_upper_key v, std_upper_key d with
  | some a, some b => some (a ++ '|' :: b)
  | some _, none => none
  | none, _ => none

/-- CategoryKey as computed independently in dim_category (lines 410-413). -/
def dimCategoryKey (v d : Option Str) : Option Str :=
  match std_upper_key v, std_upper_key d with
  | some a, some b => some (a ++ '|' :: b)
  | some _, none => none
  | none, _ => none

/-- Fact projection of one canonical record: std_text reapplied to the text
fields, pass-through of council district and ZIP, plus the two computed
keys. -/
def mkFactRow (r : CleanRow) : FactRow :=
  { serviceRequestNumber := std_text r.serviceRequestNumber
    createdDateTime := r.createdDate
    createdDate := r.createdDate
    methodReceived := std_text r.methodReceived
    status := std_text r.status
    policePrecinct := std_text r.policePrecinct
    councilDistrict := r.councilDistrict
    zipCode := r.zipCode
    violationLocatedAt := std_text r.violationLocatedAt
    dumpingDescription := std_text r.dumpingDescription
    locationKey := build_location_key_num r.location r.latitude r.longitude
    categoryKey := factCategoryKey (std_text r.violationLocatedAt)
      (std_text r.dumpingDescription) }

/-- dim_location projection of one canonical record (before dedup). -/
def mkLocationRow (r : CleanRow) : LocationRow :=
  { locationKey := build_location_key_num r.location r.latitude r.longitude
    location := std_text r.location
    latitude := r.latitude
    longitude := r.longitude
    zipCode := r.zipCode
    policePrecinct := std_text r.policePrecinct
    councilDistrict := r.councilDistrict }

/-- dim_category row from one distinct (ViolationLocatedAt,
DumpingDescription) pair. -/
def mkCategoryRow (vd : Option Str × Option Str) : CategoryRow :=
  { violationLocatedAt := vd.1
    dumpingDescription := vd.2
    categoryKey := dimCategoryKey vd.1 vd.2 }

/-- Models DataFrame.drop_duplicates(key)/Series.drop_duplicates with
keep="first": keep the first row carrying each key (pandas treats NA keys
as equal).  The seen list holds keys already emitted. -/
def dedupByKeyAux {α β : Type} [DecidableEq β] (key : α → β) :
    List β → List α → List α
  | _, [] => []
  | seen, x :: xs =>
    if key x ∈ seen then dedupByKeyAux key seen xs
    else x :: dedupByKeyAux key (key x :: seen) xs

/-- First-occurrence deduplication on a computed key. -/
def dedupByKey {α β : Type} [DecidableEq β] (key : α → β) (l : List α) : List α :=
  dedupByKeyAux key [] l

/-- First-occurrence deduplication on whole values. -/
def dedupFirst {α : Type} [DecidableEq α] (l : List α) : List α :=
  dedupByKey (fun a => a) l

/-- Insert into a sorted list (worker for sortBy). -/
def insertSorted {α : Type} (le : α → α → Bool) (x : α) : List α → List α
  | [] => [x]
  | y :: ys => if le x y then x :: y :: ys else y :: insertSorted le x ys

/-- Insertion sort, modelling Series.sort_values / sort_values("Date"). -/
def sortBy {α : Type} (le : α → α → Bool) : List α → List α
  | [] => []
  | x :: xs => insertSorted le x (sortBy le xs)

/-- Lexicographic order on text, used when sorting dim_intake/dim_status. -/
def strLe : Str → Str → Bool
  | [], _ => true
  | _ :: _, [] => false
  | a :: as, b :: bs => if a < b then true else if b < a then false else strLe as bs

/-- Order on abstract dates, used when sorting dim_date. -/
def intLe (a b : Int) : Bool := decide (a ≤ b)

/-- The star-schema table set returned by the Dimensional Modeler.
dim_date abstracts each distinct date as an integer (its calendar
attributes are derived one-to-one from it and carry no claim content). -/
structure StarSchema where
  fact : List FactRow
  dim_date : List Int
  dim_location : List LocationRow
  dim_category : List CategoryRow
  dim_intake : List Str
  dim_status : List Str
deriving DecidableEq

/-- Message of the KeyError pandas raises when
model_df[["LocationKey", "Location", "Latitude", "Longitude", "ZIP Code",
"Police Precinct", "Council District"]] (lines 376-380) references columns
missing from the frame. -/
def dimLocationMissingColumns : String :=
  "KeyError: dim_location source columns missing from input"

/-- build_star_schema (lines 263-431): fact projection per record
(order-preserving), dim_date as sorted distinct dates, dim_location as the
first-seen row per LocationKey — but its column selection raises when any
of the six source columns is missing from the input — dim_category as
distinct (ViolationLocatedAt, DumpingDescription) pairs with their key, and
dim_intake/dim_status as sorted distinct non-absent values. -/
def build_star_schema (t : CleanTable) : Except String StarSchema :=
  if t.pres.hasLocation && t.pres.hasLatitude && t.pres.hasLongitude &&
      t.pres.hasZipCode && t.pres.hasPolicePrecinct && t.pres.hasCouncilDistrict then
    Except.ok
      { fact := t.rows.map mkFactRow
        dim_date := sortBy intLe
          (dedupFirst ((t.rows.map mkFactRow).filterMap fun r => r.createdDate))
        dim_location := dedupByKey (fun r => r.locationKey) (t.rows.map mkLocationRow)
        dim_category := (dedupFirst (t.rows.map fun r =>
          (std_text r.violationLocatedAt, std_text r.dumpingDescription))).map mkCategoryRow
        dim_intake := sortBy strLe
          (dedupFirst ((t.rows.map mkFactRow).filterMap fun r => r.methodReceived))
        dim_status := sortBy strLe
          (dedupFirst ((t.rows.map mkFactRow).filterMap fun r => r.status)) }
  else Except.error dimLocationMissingColumns

/-- The distinct error conditions raised by qa_and_export (lines 464-491).
The two dimension-uniqueness errors carry no parameters because the source
messages interpolate none. -/
inductive QAError where
  | grainBroken (dupCount : ℕ)
  | nullJoinKeys (keyCol : String) (nullCount : ℕ)
  | dupLocationKey
  | dupCategoryKey
deriving DecidableEq

/-- The exact ValueError message of each QA failure. -/
def errMessage : QAError → String
  | QAError.grainBroken n =>
    "Fact grain broken: " ++ toString n ++ " duplicate ServiceRequestNumber values found."
  | QAError.nullJoinKeys col n =>
    "Null join keys found in fact: " ++ col ++ " has " ++ toString n ++ " nulls."
  | QAError.dupLocationKey => "dim_location has duplicate LocationKey values."
  | QAError.dupCategoryKey => "dim_category has duplicate CategoryKey values."

/-- Series.duplicated().sum(): number of entries that repeat an earlier
value (NA counted like any value). -/
def dupCount {α : Type} [DecidableEq α] (l : List α) : ℕ :=
  l.length - (dedupFirst l).length

/-- Number of occurrences of a value in a list. -/
def countVal {α : Type} [DecidableEq α] (v : α) (l : List α) : ℕ :=
  (l.filter fun a => decide (a = v)).length

/-- fact["ServiceRequestNumber"].duplicated().sum() (line 469). -/
def grainDupCount (s : StarSchema) : ℕ :=
  dupCount (s.fact.map fun r => r.serviceRequestNumber)

/-- fact["LocationKey"].isna().sum() (line 479). -/
def locKeyNullCount (s : StarSchema) : ℕ :=
  (s.fact.filter fun r => r.locationKey.isNone).length

/-- fact["CategoryKey"].isna().sum() (line 479). -/
def catKeyNullCount (s : StarSchema) : ℕ :=
  (s.fact.filter fun r => r.categoryKey.isNone).length

/-- dim_location["LocationKey"].duplicated() count (line 488). -/
def dimLocDupCount (s : StarSchema) : ℕ :=
  dupCount (s.dim_location.map fun r => r.locationKey)

/-- dim_category["CategoryKey"].duplicated() count (line 490). -/
def dimCatDupCount (s : StarSchema) : ℕ :=
  dupCount (s.dim_category.map fun r => r.categoryKey)

/-- The six files written on success (lines 496-501), in order. -/
def exportFiles : List String :=
  ["fact_illegal_dumping.csv", "dim_date.csv", "dim_location.csv",
   "dim_category.csv", "dim_intake.csv", "dim_status.csv"]

/-- qa_and_export (lines 438-501): the gates run in source order before any
to_csv call, so a failure yields the corresponding error and no file is
written (the mkdir on line 464 creates a directory, not a file).  Success
returns the list of files written. -/
def qa_and_export (s : StarSchema) : Except QAError (List String) :=
  if 0 < grainDupCount s then Except.error (QAError.grainBroken (grainDupCount s))
  else if 0 < locKeyNullCount s then
    Except.error (QAError.nullJoinKeys ("LocationKey") (locKeyNullCount s))
  else if 0 < catKeyNullCount s then
    Except.error (QAError.nullJoinKeys ("CategoryKey") (catKeyNullCount s))
  else if 0 < dimLocDupCount s then Except.error QAError.dupLocationKey
  else if 0 < dimCatDupCount s then Except.error QAError.dupCategoryKey
  else Except.ok exportFiles

/-- Whether any Integrity Validator gate fires. -/
def qaAnyFail (s : StarSchema) : Bool :=
  decide (0 < grainDupCount s) || decide (0 < locKeyNullCount s) ||
  decide (0 < catKeyNullCount s) || decide (0 < dimLocDupCount s) ||
  decide (0 < dimCatDupCount s)

/-- Safe elimination of an Except value by a default. -/
def getOk {ε α : Type} (e : Except ε α) (d : α) : α :=
  match e with
  | Except.ok a => a
  | Except.error _ => d

/-- Header set of a complete input file. -/
def presAll : ColPresence :=
  { hasMethodReceived := true, hasStatus := true, hasPolicePrecinct := true
    hasCouncilDistrict := true, hasZipCode := true, hasViolationLocatedAt := true
    hasDumpingDescription := true, hasLocation := true, hasLatitude := true
    hasLongitude := true }

/-- A raw record whose cells are all NA. -/
def allNoneRawRow : RawRow :=
  { serviceRequestNumber := none, createdDate := none, methodReceived := none
    status := none, policePrecinct := none, councilDistrict := none
    zipCode := none, violationLocatedAt := none, dumpingDescription := none
    location := none, latitude := none, longitude := none }

/-- A canonical record whose fields are all absent. -/
def allNoneCleanRow : CleanRow :=
  { serviceRequestNumber := none, createdDate := none, methodReceived := none
    status := none, policePrecinct := none, councilDistrict := none
    zipCode := none, violationLocatedAt := none, dumpingDescription := none
    location := none, latitude := none, longitude := none }

/-- The empty table set. -/
def emptySchema : StarSchema :=
  { fact := [], dim_date := [], dim_location := [], dim_category := []
    dim_intake := [], dim_status := [] }

/-- Concrete input for C7: a file whose Latitude column is missing (its
stray cell value demonstrates that the cell is never read). -/
def rawNoLatTable : RawTable :=
  { pres := { presAll with hasLatitude := false }
    rows := [{ allNoneRawRow with
               location := some ("1 Main St".toList)
               latitude := some ("47.6".toList) }] }

/-- Concrete raw record for C8: a non-numeric council district value. -/
def rawBadCouncilRow : RawRow :=
  { allNoneRawRow with councilDistrict := some ("N/A".toList) }

/-- Concrete cleaned input for C6: two records whose category pairs differ
only by letter case, so they survive pair-deduplication yet produce one and
the same CategoryKey. -/
def caseCategoryTable : CleanTable :=
  { pres := presAll
    rows := [{ allNoneCleanRow with
                 serviceRequestNumber := some ("21-1".toList)
                 violationLocatedAt := some ("Alley".toList)
                 dumpingDescription := some ("Tires".toList)
                 location := some ("1 Main St".toList) },
             { allNoneCleanRow with
                 serviceRequestNumber := some ("21-2".toList)
                 violationLocatedAt := some ("ALLEY".toList)
                 dumpingDescription := some ("Tires".toList)
                 location := some ("1 Main St".toList) }] }

/-- The schema built from caseCategoryTable. -/
def caseCategorySchema : StarSchema :=
  getOk (build_star_schema caseCategoryTable) emptySchema

/-- Concrete cleaned input for the C3 witness: the category fields carry the
upstream "Unknown" fallback. -/
def unknownPairTable : CleanTable :=
  { pres := presAll
    rows := [{ allNoneCleanRow with
                 serviceRequestNumber := some ("22-9".toList)
                 violationLocatedAt := some (unknownText)
                 dumpingDescription := some (unknownText)
                 location := some ("5 Oak Way".toList) }] }

/-- The schema built from unknownPairTable. -/
def unknownPairSchema : StarSchema :=
  getOk (build_star_schema unknownPairTable) emptySchema

/-- The fact row of unknownPairSchema. -/
def unknownPairFactRow : FactRow :=
  mkFactRow { allNoneCleanRow with
                serviceRequestNumber := some ("22-9".toList)
                violationLocatedAt := some (unknownText)
                dumpingDescription := some (unknownText)
                location := some ("5 Oak Way".toList) }

/-- The dim_category row of unknownPairSchema. -/
def unknownPairCatRow : CategoryRow :=
  { violationLocatedAt := some (unknownText)
    dumpingDescription := some (unknownText)
    categoryKey := some ("UNKNOWN|UNKNOWN".toList) }

/-- Concrete cleaned input for the C9 witness: two records at one address. -/
def dupLocationTable : CleanTable :=
  { pres := presAll
    rows := [{ allNoneCleanRow with
                 serviceRequestNumber := some ("23-1".toList)
                 location := some ("9 Elm Ct".toList) },
             { allNoneCleanRow with
                 serviceRequestNumber := some ("23-2".toList)
                 location := some ("9 Elm Ct!!".toList) }] }

/-- The schema built from dupLocationTable. -/
def dupLocationSchema : StarSchema :=
  getOk (build_star_schema dupLocationTable) emptySchema

/-- A fact row with every field absent. -/
def allNoneFactRow : FactRow :=
  { serviceRequestNumber := none, createdDateTime := none, createdDate := none
    methodReceived := none, status := none, policePrecinct := none
    councilDistrict := none, zipCode := none, violationLocatedAt := none
    dumpingDescription := none, locationKey := none, categoryKey := none }

/-- Concrete table set for C10: two fact rows whose ServiceRequestNumber is
absent (and well-formed join keys, to isolate the grain gate). -/
def absentSrnSchema : StarSchema :=
  { fact := [{ allNoneFactRow with
                 locationKey := some ("9 ELM CT".toList)
                 categoryKey := some ("UNKNOWN|UNKNOWN".toList) },
             { allNoneFactRow with
                 locationKey := some ("9 ELM CT".toList)
                 categoryKey := some ("UNKNOWN|UNKNOWN".toList) }]
    dim_date := [], dim_location := [], dim_category := []
    dim_intake := [], dim_status := [] }

/-- Concrete table set for C4: every fact gate passes but dim_category
carries a duplicated CategoryKey, so the raised error is the unparameterized
dimension-uniqueness one. -/
def dupCatKeySchema : StarSchema :=
  { fact := [{ allNoneFactRow with
                 serviceRequestNumber := some ("24-1".toList)
                 locationKey := some ("1 MAIN ST".toList)
                 categoryKey := some ("ALLEY|TIRES".toList) }]
    dim_date := []
    dim_location := []
    dim_category := [{ violationLocatedAt := some ("Alley".toList)
                       dumpingDescription := some ("Tires".toList)
                       categoryKey := some ("ALLEY|TIRES".toList) },
                     { violationLocatedAt := some ("ALLEY".toList)
                       dumpingDescription := some ("Tires".toList)
                       categoryKey := some ("ALLEY|TIRES".toList) }]
    dim_intake := [], dim_status := [] }


/-! Helper lemmas about the character and text primitives. -/

/-- Either a character is outside the uppercase table and kept unchanged, or
its mapping is a table entry. -/
theorem upChar_spec (c : Char) :
    ((∀ p ∈ upPairs, p.1 ≠ c) ∧ upChar c = c) ∨ (c, upChar c) ∈ upPairs := by
  unfold upChar
  cases h : upPairs.find? (fun q => q.1 == c) with
  | none =>
    left
    refine ⟨?_, by simp⟩
    intro p hp
    have := List.find?_eq_none.mp h p hp
    simpa using this
  | some p =>
    right
    have hmem := List.mem_of_find?_eq_some h
    have hp := List.find?_some h
    have hc : p.1 = c := by simpa using hp
    simpa [← hc] using hmem

/-- Uppercasing a character does not change whether it is whitespace. -/
theorem upChar_isWs (c : Char) : (upChar c).isWhitespace = c.isWhitespace := by
  rcases upChar_spec c with ⟨-, h⟩ | h
  · rw [h]
  · have hws : ∀ p ∈ upPairs, (p.2).isWhitespace = (p.1).isWhitespace := by decide
    simpa using hws _ h

/-- Uppercased characters are never the lowercase letters occurring in the
no-value markers. -/
theorem upChar_ne_marker_chars (c : Char) :
    upChar c ≠ 'o' ∧ upChar c ≠ 'n' ∧ upChar c ≠ 'e' ∧ upChar c ≠ 'a' := by
  rcases upChar_spec c with ⟨hall, h⟩ | h
  · rw [h]
    exact ⟨fun hc => hall ('o','O') (by decide) hc.symm,
           fun hc => hall ('n','N') (by decide) hc.symm,
           fun hc => hall ('e','E') (by decide) hc.symm,
           fun hc => hall ('a','A') (by decide) hc.symm⟩
  · have hsnd : ∀ p ∈ upPairs, p.2 ≠ 'o' ∧ p.2 ≠ 'n' ∧ p.2 ≠ 'e' ∧ p.2 ≠ 'a' := by
      decide
    simpa using hsnd _ h

/-- An uppercased text is empty exactly when the original is. -/
theorem upStr_eq_nil_iff (s : Str) : upStr s = [] ↔ s = [] := by
  simp [upStr]

/-- No uppercased text equals the marker "None". -/
theorem upStr_ne_none_marker (s : Str) : upStr s ≠ "None".toList := by
  intro h
  rw [show ("None".toList) = 'N' :: 'o' :: 'n' :: 'e' :: [] from rfl] at h
  cases s with
  | nil => simp [upStr] at h
  | cons c1 t1 =>
    cases t1 with
    | nil => simp [upStr] at h
    | cons c2 t2 =>
      simp only [upStr, List.map_cons, List.cons.injEq] at h
      exact (upChar_ne_marker_chars c2).1 h.2.1

/-- No uppercased text equals the marker "nan". -/
theorem upStr_ne_nan_marker (s : Str) : upStr s ≠ "nan".toList := by
  intro h
  rw [show ("nan".toList) = 'n' :: 'a' :: 'n' :: [] from rfl] at h
  cases s with
  | nil => simp [upStr] at h
  | cons c1 t1 =>
    simp only [upStr, List.map_cons, List.cons.injEq] at h
    exact (upChar_ne_marker_chars c1).2.1 h.1

/-- Dropping leading whitespace commutes with uppercasing. -/
theorem dropWhile_ws_map_upChar (l : Str) :
    (l.map upChar).dropWhile Char.isWhitespace =
      (l.dropWhile Char.isWhitespace).map upChar := by
  induction l with
  | nil => rfl
  | cons c t ih =>
    simp only [List.map_cons, List.dropWhile_cons, upChar_isWs c]
    by_cases hc : c.isWhitespace <;> simp [hc, ih]

/-- Stripping commutes with uppercasing. -/
theorem strip_upStr (s : Str) : strip (upStr s) = upStr (strip s) := by
  simp only [strip, dropEndWs, upStr]
  rw [dropWhile_ws_map_upChar, ← List.map_reverse, dropWhile_ws_map_upChar,
    ← List.map_reverse]

/-- Stripping yields a sublist of the original text. -/
theorem strip_sublist (l : Str) : (strip l).Sublist l := by
  unfold strip dropEndWs
  refine List.Sublist.trans ?_ (List.dropWhile_sublist Char.isWhitespace)
  have h := (List.dropWhile_sublist
    (l := (l.dropWhile Char.isWhitespace).reverse) Char.isWhitespace).reverse
  simpa using h

/-- Every character emitted by the whitespace collapser is a space or comes
from the input. -/
theorem mem_collapseGo (c : Char) :
    ∀ (b : Bool) (l : List Char), c ∈ collapseGo b l → c = ' ' ∨ c ∈ l := by
  intro b l
  induction l generalizing b with
  | nil => intro h; cases b <;> simp [collapseGo] at h
  | cons x t ih =>
    intro h
    cases b <;> by_cases hx : x.isWhitespace <;>
      simp only [collapseGo, hx, if_true, if_false] at h
    · rcases List.mem_cons.mp h with h1 | h1
      · exact Or.inl h1
      · rcases ih true h1 with h2 | h2
        · exact Or.inl h2
        · exact Or.inr (List.mem_cons_of_mem _ h2)
    · rcases List.mem_cons.mp h with h1 | h1
      · exact Or.inr (h1 ▸ List.mem_cons_self _ _)
      · rcases ih false h1 with h2 | h2
        · exact Or.inl h2
        · exact Or.inr (List.mem_cons_of_mem _ h2)
    · rcases ih true h with h2 | h2
      · exact Or.inl h2
      · exact Or.inr (List.mem_cons_of_mem _ h2)
    · rcases List.mem_cons.mp h with h1 | h1
      · exact Or.inr (h1 ▸ List.mem_cons_self _ _)
      · rcases ih false h1 with h2 | h2
        · exact Or.inl h2
        · exact Or.inr (List.mem_cons_of_mem _ h2)

/-- Every character of a normalized address lies in the kept class
[A-Z0-9 ]. -/
theorem mem_normalized_alnum (s : Str) (c : Char)
    (h : c ∈ strip (collapseWs (filterAlnum (upStr s)))) : isAlnumSpace c = true := by
  have h1 : c ∈ collapseWs (filterAlnum (upStr s)) := (strip_sublist _).subset h
  rcases mem_collapseGo c false _ h1 with h2 | h2
  · subst h2; decide
  · exact (List.mem_filter.mp h2).2

/-! Helper lemmas about deduplication and sorting. -/

/-- Deduplication never lengthens a list. -/
theorem length_dedupByKeyAux_le {α β : Type} [DecidableEq β] (key : α → β) :
    ∀ (seen : List β) (l : List α), (dedupByKeyAux key seen l).length ≤ l.length := by
  intro seen l
  induction l generalizing seen with
  | nil => simp [dedupByKeyAux]
  | cons x t ih =>
    by_cases hx : key x ∈ seen
    · simp only [dedupByKeyAux, if_pos hx]
      exact Nat.le_trans (ih seen) (Nat.le_succ _)
    · simp only [dedupByKeyAux, if_neg hx, List.length_cons]
      exact Nat.succ_le_succ (ih _)

/-- The keys of a deduplicated list are distinct and avoid the seen set. -/
theorem nodup_keys_dedupByKeyAux {α β : Type} [DecidableEq β] (key : α → β) :
    ∀ (seen : List β) (l : List α),
      ((dedupByKeyAux key seen l).map key).Nodup ∧
      ∀ b ∈ (dedupByKeyAux key seen l).map key, b ∉ seen := by
  intro seen l
  induction l generalizing seen with
  | nil => simp [dedupByKeyAux]
  | cons x t ih =>
    by_cases hx : key x ∈ seen
    · simpa only [dedupByKeyAux, if_pos hx] using ih seen
    · obtain ⟨ih1, ih2⟩ := ih (key x :: seen)
      simp only [dedupByKeyAux, if_neg hx, List.map_cons]
      constructor
      · rw [List.nodup_cons]
        refine ⟨fun hmem => ?_, ih1⟩
        exact (ih2 _ hmem) (List.mem_cons_self _ _)
      · intro b hb
        rcases List.mem_cons.mp hb with hb1 | hb1
        · exact hb1 ▸ hx
        · intro hbs
          exact (ih2 _ hb1) (List.mem_cons_of_mem _ hbs)

/-- The keys of a key-deduplicated list are distinct. -/
theorem nodup_keys_dedupByKey {α β : Type} [DecidableEq β] (key : α → β)
    (l : List α) : ((dedupByKey key l).map key).Nodup :=
  (nodup_keys_dedupByKeyAux key [] l).1

/-- A value-deduplicated list has distinct entries. -/
theorem nodup_dedupFirst {α : Type} [DecidableEq α] (l : List α) :
    (dedupFirst l).Nodup := by
  have h := nodup_keys_dedupByKey (fun a => a) l
  simpa [List.map_id'] using h

/-- Deduplicating a duplicate-free list whose keys avoid the seen set is the
identity. -/
theorem dedupByKeyAux_eq_self {α β : Type} [DecidableEq β] (key : α → β) :
    ∀ (seen : List β) (l : List α), ((l.map key).Nodup) →
      (∀ a ∈ l, key a ∉ seen) → dedupByKeyAux key seen l = l := by
  intro seen l
  induction l generalizing seen with
  | nil => intro _ _; rfl
  | cons x t ih =>
    intro hnd hs
    have hx : key x ∉ seen := hs x (List.mem_cons_self _ _)
    simp only [dedupByKeyAux, if_neg hx]
    rw [List.map_cons, List.nodup_cons] at hnd
    refine congrArg (x :: ·) (ih _ hnd.2 ?_)
    intro a ha
    intro hmem
    rcases List.mem_cons.mp hmem with h1 | h1
    · exact hnd.1 (h1 ▸ List.mem_map_of_mem key ha)
    · exact hs a (List.mem_cons_of_mem _ ha) h1

/-- A duplicate-free list is unchanged by deduplication. -/
theorem dedupFirst_eq_self {α : Type} [DecidableEq α] (l : List α)
    (h : l.Nodup) : dedupFirst l = l := by
  refine dedupByKeyAux_eq_self (fun a => a) [] l ?_ (by simp)
  simpa [List.map_id']

/-- On a duplicate-free list the duplicate count is zero. -/
theorem dupCount_eq_zero_of_nodup {α : Type} [DecidableEq α] (l : List α)
    (h : l.Nodup) : dupCount l = 0 := by
  rw [dupCount, dedupFirst_eq_self l h, Nat.sub_self]

/-- Deduplication strictly shortens a list containing an element whose key
is already in the seen set. -/
theorem length_dedupByKeyAux_lt_of_seen {α : Type} [DecidableEq α] :
    ∀ (seen : List α) (l : List α) (v : α), v ∈ l → v ∈ seen →
      (dedupByKeyAux (fun a => a) seen l).length < l.length := by
  intro seen l
  induction l generalizing seen with
  | nil => intro v hv; simp at hv
  | cons x t ih =>
    intro v hv hseen
    by_cases hx : x ∈ seen
    · simp only [dedupByKeyAux, if_pos hx, List.length_cons]
      exact Nat.lt_succ_of_le (length_dedupByKeyAux_le _ seen t)
    · have hxv : x ≠ v := fun h => hx (h ▸ hseen)
      have hvt : v ∈ t := by
        rcases List.mem_cons.mp hv with h1 | h1
        · exact absurd h1.symm hxv
        · exact h1
      simp only [dedupByKeyAux, if_neg hx, List.length_cons]
      exact Nat.succ_lt_succ (ih _ v hvt (List.mem_cons_of_mem _ hseen))

/-- Unfolding countVal over a cons cell. -/
theorem countVal_cons {α : Type} [DecidableEq α] (v x : α) (t : List α) :
    countVal v (x :: t) = if x = v then countVal v t + 1 else countVal v t := by
  by_cases hxv : x = v <;> simp [countVal, List.filter_cons, hxv]

/-- A positive occurrence count means membership. -/
theorem mem_of_countVal_pos {α : Type} [DecidableEq α] {v : α} {l : List α}
    (h : 0 < countVal v l) : v ∈ l := by
  induction l with
  | nil => simp [countVal] at h
  | cons x t ih =>
    rw [countVal_cons] at h
    by_cases hxv : x = v
    · exact hxv ▸ List.mem_cons_self _ _
    · rw [if_neg hxv] at h
      exact List.mem_cons_of_mem _ (ih h)

/-- Deduplication strictly shortens a list containing a value twice. -/
theorem length_dedupByKeyAux_lt_of_two {α : Type} [DecidableEq α] :
    ∀ (seen : List α) (l : List α) (v : α), 2 ≤ countVal v l →
      (dedupByKeyAux (fun a => a) seen l).length < l.length := by
  intro seen l
  induction l generalizing seen with
  | nil => intro v hv; simp [countVal] at hv
  | cons x t ih =>
    intro v hv
    by_cases hx : x ∈ seen
    · simp only [dedupByKeyAux, if_pos hx, List.length_cons]
      exact Nat.lt_succ_of_le (length_dedupByKeyAux_le _ seen t)
    · simp only [dedupByKeyAux, if_neg hx, List.length_cons]
      by_cases hxv : x = v
      · rw [countVal_cons, if_pos hxv] at hv
        have hvt : v ∈ t := mem_of_countVal_pos (by omega)
        refine Nat.succ_lt_succ
          (length_dedupByKeyAux_lt_of_seen _ t v hvt ?_)
        rw [hxv]
        exact List.mem_cons_self _ _
      · rw [countVal_cons, if_neg hxv] at hv
        exact Nat.succ_lt_succ (ih _ v hv)

/-- A list containing a value twice has a positive duplicate count. -/
theorem dupCount_pos_of_two {α : Type} [DecidableEq α] (l : List α) (v : α)
    (h : 2 ≤ countVal v l) : 0 < dupCount l := by
  rw [dupCount]
  exact Nat.sub_pos_of_lt (length_dedupByKeyAux_lt_of_two [] l v h)

/-- Membership in an insertion step. -/
theorem mem_insertSorted {α : Type} (le : α → α → Bool) (x a : α) :
    ∀ l : List α, a ∈ insertSorted le x l ↔ a = x ∨ a ∈ l := by
  intro l
  induction l with
  | nil => simp [insertSorted]
  | cons y t ih =>
    by_cases h : le x y
    · simp [insertSorted, h, List.mem_cons]
    · simp only [insertSorted, if_neg h, List.mem_cons, ih]
      tauto

/-- Inserting a fresh element preserves distinctness. -/
theorem nodup_insertSorted {α : Type} (le : α → α → Bool) (x : α) :
    ∀ l : List α, x ∉ l → l.Nodup → (insertSorted le x l).Nodup := by
  intro l
  induction l with
  | nil => intro _ _; simp [insertSorted]
  | cons y t ih =>
    intro hx hnd
    rw [List.nodup_cons] at hnd
    by_cases h : le x y
    · rw [insertSorted, if_pos h, List.nodup_cons, List.nodup_cons]
      refine ⟨fun hc => ?_, hnd⟩
      exact hx (List.mem_cons.mpr (by tauto))
    · rw [insertSorted, if_neg h, List.nodup_cons]
      constructor
      · rw [mem_insertSorted]
        rintro (h1 | h1)
        · exact hx (h1 ▸ List.mem_cons_self _ _)
        · exact hnd.1 h1
      · exact ih (fun hc => hx (List.mem_cons_of_mem _ hc)) hnd.2

/-- Sorting preserves membership. -/
theorem mem_sortBy {α : Type} (le : α → α → Bool) (a : α) :
    ∀ l : List α, a ∈ sortBy le l ↔ a ∈ l := by
  intro l
  induction l with
  | nil => simp [sortBy]
  | cons x t ih => simp [sortBy, mem_insertSorted, ih, List.mem_cons]

/-- Sorting preserves distinctness. -/
theorem nodup_sortBy {α : Type} (le : α → α → Bool) :
    ∀ l : List α, l.Nodup → (sortBy le l).Nodup := by
  intro l
  induction l with
  | nil => intro _; simp [sortBy]
  | cons x t ih =>
    intro hnd
    rw [List.nodup_cons] at hnd
    exact nodup_insertSorted le x _ (fun hc => hnd.1 ((mem_sortBy le x t).mp hc))
      (ih hnd.2)

/-! Helper lemmas about the modeler and validator. -/

/-- Shape of every successfully built schema: each table is exactly its
construction expression. -/
theorem build_star_schema_ok_elim {t : CleanTable} {s : StarSchema}
    (h : build_star_schema t = Except.ok s) :
    s.fact = t.rows.map mkFactRow ∧
    s.dim_location = dedupByKey (fun r => r.locationKey) (t.rows.map mkLocationRow) ∧
    s.dim_category = (dedupFirst (t.rows.map fun r =>
      (std_text r.violationLocatedAt, std_text r.dumpingDescription))).map mkCategoryRow ∧
    s.dim_intake = sortBy strLe
      (dedupFirst ((t.rows.map mkFactRow).filterMap fun r => r.methodReceived)) ∧
    s.dim_status = sortBy strLe
      (dedupFirst ((t.rows.map mkFactRow).filterMap fun r => r.status)) ∧
    s.dim_date = sortBy intLe
      (dedupFirst ((t.rows.map mkFactRow).filterMap fun r => r.createdDate)) := by
  unfold build_star_schema at h
  split at h
  · injection h with h2
    subst h2
    exact ⟨rfl, rfl, rfl, rfl, rfl, rfl⟩
  · cases h
/-! Claim theorems and their witnesses. -/

/-- Joint preliminary: normalizeAddress agrees with the spec-worded
address normalization (the post-uppercase marker replace can only fire on
the empty string, because a normalized address contains no lowercase
letters). -/
theorem normalizeAddress_eq_spec (loc : Option Str) :
    normalizeAddress loc = specNormalizeAddress loc := by
  cases loc with
  | none => rfl
  | some s =>
    show replaceMarkers (strip (collapseWs (filterAlnum (upStr s)))) = _
    have hno : strip (collapseWs (filterAlnum (upStr s))) ≠ "None".toList := by
      intro h
      have hmem : 'o' ∈ strip (collapseWs (filterAlnum (upStr s))) := by
        rw [h]; decide
      have := mem_normalized_alnum s 'o' hmem
      exact absurd this (by decide)
    have hna : strip (collapseWs (filterAlnum (upStr s))) ≠ "nan".toList := by
      intro h
      have hmem : 'a' ∈ strip (collapseWs (filterAlnum (upStr s))) := by
        rw [h]; decide
      have := mem_normalized_alnum s 'a' hmem
      exact absurd this (by decide)
    rw [replaceMarkers, if_neg hno, if_neg hna]
    rfl

/-- Core refinement: build_location_key_num equals the spec's ordered
derivation. -/
theorem build_location_key_num_eq_spec (loc : Option Str) (latN lonN : Option NumVal) :
    build_location_key_num loc latN lonN = locationKeySpec loc latN lonN := by
  cases latN with
  | none =>
    cases lonN <;>
      simp [build_location_key_num, locationKeySpec, isZeroCell,
        normalizeAddress_eq_spec]
  | some a =>
    cases lonN with
    | none =>
      simp [build_location_key_num, locationKeySpec, isZeroCell,
        normalizeAddress_eq_spec]
    | some b =>
      by_cases h : a.num = 0 ∧ b.num = 0
      · simp [build_location_key_num, locationKeySpec, isZeroCell, NumVal.isZero,
          h, h.1, h.2, normalizeAddress_eq_spec]
      · have hb : (isZeroCell (some a) && isZeroCell (some b)) = false := by
          simp only [isZeroCell, NumVal.isZero, Bool.and_eq_false_iff,
            beq_eq_false_iff_ne, ne_eq]
          tauto
        simp only [build_location_key_num, locationKeySpec, hb,
          Bool.false_eq_true, if_false, Option.map_some']
        rw [if_neg h]
/-- C1: two records whose coordinates both parse as numbers, are not the
(0,0) placeholder, and round to equal 4-decimal values receive equal
Location Keys from build_location_key, whatever their addresses. -/
theorem build_location_key_stable
    (loc1 loc2 lat1 lon1 lat2 lon2 : Option Str) (v1 w1 v2 w2 : NumVal)
    (h1 : lat1.bind parseNum = some v1) (h2 : lon1.bind parseNum = some w1)
    (h3 : lat2.bind parseNum = some v2) (h4 : lon2.bind parseNum = some w2)
    (hz1 : ¬(v1.num = 0 ∧ w1.num = 0)) (hz2 : ¬(v2.num = 0 ∧ w2.num = 0))
    (hla : round4 v1 = round4 v2) (hlo : round4 w1 = round4 w2) :
    build_location_key loc1 lat1 lon1 = build_location_key loc2 lat2 lon2 := by
  rw [build_location_key, build_location_key, h1, h2, h3, h4,
    build_location_key_num_eq_spec, build_location_key_num_eq_spec]
  simp only [locationKeySpec]
  rw [if_neg hz1, if_neg hz2, hla, hlo]

/-- C1 witness: 47.60621 and 47.60619 round to the same 4-decimal value, as
do -122.33 and -122.33002, so the two records share one key. -/
theorem build_location_key_stable_witness :
    build_location_key (some ("1 Main".toList)) (some ("47.60621".toList))
        (some ("-122.33".toList)) =
      build_location_key none (some ("47.60619".toList))
        (some ("-122.33002".toList)) :=
  build_location_key_stable _ _ _ _ _ _
    ⟨4760621, 100000⟩ ⟨-12233, 100⟩ ⟨4760619, 100000⟩ ⟨-12233002, 100000⟩
    (by decide) (by decide) (by decide) (by decide)
    (by decide) (by decide) (by decide) (by decide)

/-- C2: a record parsing to the (0,0) placeholder always resolves through
the address-normalization path, and in general build_location_key follows
the spec's ordered derivation — coordinate key when both parsed coordinates
exist and are not (0,0), else the normalized address if non-empty, else
absent. -/
theorem build_location_key_ordered_derivation :
    (∀ loc lat lon : Option Str, ∀ v w : NumVal,
      lat.bind parseNum = some v → lon.bind parseNum = some w →
      v.num = 0 → w.num = 0 →
      build_location_key loc lat lon = specNormalizeAddress loc) ∧
    ∀ loc lat lon : Option Str,
      build_location_key loc lat lon =
        locationKeySpec loc (lat.bind parseNum) (lon.bind parseNum) := by
  have main : ∀ loc lat lon : Option Str,
      build_location_key loc lat lon =
        locationKeySpec loc (lat.bind parseNum) (lon.bind parseNum) := by
    intro loc lat lon
    rw [build_location_key, build_location_key_num_eq_spec]
  refine ⟨?_, main⟩
  intro loc lat lon v w h1 h2 hv hw
  rw [main, h1, h2]
  simp only [locationKeySpec]
  rw [if_pos ⟨hv, hw⟩]

/-- C2 witness: latitude "0", longitude "0.0" with a punctuated address
resolve through address normalization. -/
theorem build_location_key_ordered_derivation_witness :
    build_location_key (some (" 456 Oak Ave. ".toList)) (some ("0".toList))
        (some ("0.0".toList)) =
      specNormalizeAddress (some (" 456 Oak Ave. ".toList)) :=
  build_location_key_ordered_derivation.1 _ _ _ ⟨0, 1⟩ ⟨0, 10⟩
    (by decide) (by decide) (by decide) (by decide)
/-- C5 (amended): normalizeKeyText equals uppercase-after-normalizeText on
every input that does not trim to one of the literal markers "None"/"nan";
absent input maps to absent under both. -/
theorem std_upper_key_matches_upper_std_text (s : Str)
    (h1 : strip s ≠ "None".toList) (h2 : strip s ≠ "nan".toList) :
    std_upper_key (some s) = (std_text (some s)).map upStr ∧
    std_upper_key none = (std_text (none : Option Str)).map upStr := by
  refine ⟨?_, rfl⟩
  show replaceMarkers (strip (upStr s)) = (replaceMarkers (strip s)).map upStr
  rw [strip_upStr]
  by_cases h0 : strip s = []
  · rw [h0]
    rfl
  · have hu0 : upStr (strip s) ≠ [] := by
      simpa [upStr_eq_nil_iff] using h0
    rw [replaceMarkers, if_neg (upStr_ne_none_marker _), if_neg (upStr_ne_nan_marker _),
      if_neg hu0, replaceMarkers, if_neg h1, if_neg h2, if_neg h0]
    rfl

/-- C5 counterexample: the literal value "None" is a no-value marker for
normalizeText but, uppercased before the marker replace, survives
normalizeKeyText as the concrete key "NONE". -/
theorem std_upper_key_none_marker_diverges :
    std_text (some ("None".toList)) = none ∧
    std_upper_key (some ("None".toList)) = some ("NONE".toList) := by
  exact ⟨rfl, rfl⟩

/-- C5 witness: on an ordinary mixed-case value the two normalizers agree up
to uppercasing. -/
theorem std_upper_key_matches_upper_std_text_witness :
    std_upper_key (some (" mixed Case ".toList)) =
      (std_text (some (" mixed Case ".toList))).map upStr ∧
    std_upper_key none = (std_text (none : Option Str)).map upStr :=
  std_upper_key_matches_upper_std_text (" mixed Case ".toList) (by decide) (by decide)
/-- C3: the CategoryKey computed in the fact projection and the one computed
independently in dim_category are byte-identical functions, and in every
built schema a fact row and a dim_category row carrying the same
(ViolationLocatedAt, DumpingDescription) pair carry equal CategoryKeys. -/
theorem categoryKey_fact_dim_agree :
    (∀ v d : Option Str, factCategoryKey v d = dimCategoryKey v d) ∧
    ∀ (t : CleanTable) (s : StarSchema), build_star_schema t = Except.ok s →
      ∀ fr ∈ s.fact, ∀ cr ∈ s.dim_category,
        fr.violationLocatedAt = cr.violationLocatedAt →
        fr.dumpingDescription = cr.dumpingDescription →
        fr.categoryKey = cr.categoryKey := by
  have part1 : ∀ v d : Option Str, factCategoryKey v d = dimCategoryKey v d :=
    fun v d => rfl
  refine ⟨part1, ?_⟩
  intro t s h fr hfr cr hcr hv hd
  obtain ⟨hfact, -, hcat, -, -, -⟩ := build_star_schema_ok_elim h
  rw [hfact] at hfr
  rw [hcat] at hcr
  obtain ⟨r, -, hr⟩ := List.mem_map.mp hfr
  obtain ⟨vd, -, hvd⟩ := List.mem_map.mp hcr
  have hfrk : fr.categoryKey =
      factCategoryKey fr.violationLocatedAt fr.dumpingDescription := by
    rw [← hr]; rfl
  have hcrk : cr.categoryKey =
      dimCategoryKey cr.violationLocatedAt cr.dumpingDescription := by
    rw [← hvd]; rfl
  rw [hfrk, hcrk, hv, hd, part1]

/-- C3 witness: the one fact row and the one dim_category row built from a
record whose category fields carry the upstream "Unknown" fallback agree on
the key "UNKNOWN|UNKNOWN". -/
theorem categoryKey_fact_dim_agree_witness :
    unknownPairFactRow.categoryKey = unknownPairCatRow.categoryKey :=
  categoryKey_fact_dim_agree.2 unknownPairTable unknownPairSchema rfl
    unknownPairFactRow (by decide) unknownPairCatRow (by decide)
    (by decide) (by decide)

/-- C6 counterexample: two cleaned records whose category pairs differ only
by letter case survive pair-deduplication as two dim_category rows carrying
one and the same CategoryKey, so the CategoryKey is not unique across
dim_category rows. -/
theorem dim_category_duplicate_categoryKey :
    build_star_schema caseCategoryTable = Except.ok caseCategorySchema ∧
    (caseCategorySchema.dim_category.map fun r => r.categoryKey) =
      [some ("ALLEY|TIRES".toList), some ("ALLEY|TIRES".toList)] ∧
    dupCount (caseCategorySchema.dim_category.map fun r => r.categoryKey) = 1 :=
  ⟨rfl, rfl, rfl⟩

/-- C6 (amended): dim_category is deduplicated on the
(ViolationLocatedAt, DumpingDescription) pair — not on CategoryKey, which
can repeat when two pairs differ only by case — while the natural keys of
dim_location, dim_intake, dim_status and dim_date are unique across rows. -/
theorem dimension_natural_keys_unique (t : CleanTable) (s : StarSchema)
    (h : build_star_schema t = Except.ok s) :
    (s.dim_category.map fun r =>
      (r.violationLocatedAt, r.dumpingDescription)).Nodup ∧
    (s.dim_location.map fun r => r.locationKey).Nodup ∧
    s.dim_intake.Nodup ∧ s.dim_status.Nodup ∧ s.dim_date.Nodup := by
  obtain ⟨-, hloc, hcat, hint, hstat, hdate⟩ := build_star_schema_ok_elim h
  refine ⟨?_, ?_, ?_, ?_, ?_⟩
  · rw [hcat, List.map_map]
    have he : ((fun r : CategoryRow => (r.violationLocatedAt, r.dumpingDescription))
        ∘ mkCategoryRow) = fun vd => vd := by
      funext vd
      simp [mkCategoryRow]
    rw [he, List.map_id']
    exact nodup_dedupFirst _
  · rw [hloc]
    exact nodup_keys_dedupByKey _ _
  · rw [hint]
    exact nodup_sortBy _ _ (nodup_dedupFirst _)
  · rw [hstat]
    exact nodup_sortBy _ _ (nodup_dedupFirst _)
  · rw [hdate]
    exact nodup_sortBy _ _ (nodup_dedupFirst _)

/-- C6 witness: on the case-variant input the pair-level dedup and the other
dimensions' key uniqueness hold even as the CategoryKey repeats. -/
theorem dimension_natural_keys_unique_witness :
    (caseCategorySchema.dim_category.map fun r =>
      (r.violationLocatedAt, r.dumpingDescription)).Nodup ∧
    (caseCategorySchema.dim_location.map fun r => r.locationKey).Nodup ∧
    caseCategorySchema.dim_intake.Nodup ∧ caseCategorySchema.dim_status.Nodup ∧
    caseCategorySchema.dim_date.Nodup :=
  dimension_natural_keys_unique caseCategoryTable caseCategorySchema rfl

/-- C9: dim_location is deduplicated on LocationKey by construction, so the
duplicate-LocationKey branch of the Integrity Validator can never fire on a
schema produced by build_star_schema. -/
theorem dim_location_dup_check_unreachable (t : CleanTable) (s : StarSchema)
    (h : build_star_schema t = Except.ok s) :
    dimLocDupCount s = 0 ∧
    qa_and_export s ≠ Except.error QAError.dupLocationKey := by
  obtain ⟨-, hloc, -, -, -, -⟩ := build_star_schema_ok_elim h
  have h0 : dimLocDupCount s = 0 := by
    rw [dimLocDupCount, hloc]
    exact dupCount_eq_zero_of_nodup _ (nodup_keys_dedupByKey _ _)
  refine ⟨h0, ?_⟩
  rw [qa_and_export]
  split_ifs with hg hl hc hd hcat
  · simp
  · simp
  · simp
  · omega
  · simp
  · simp

/-- C9 witness: two records at the same address collapse to one dim_location
row, and the validator cannot raise the duplicate-LocationKey error. -/
theorem dim_location_dup_check_unreachable_witness :
    dimLocDupCount dupLocationSchema = 0 ∧
    qa_and_export dupLocationSchema ≠ Except.error QAError.dupLocationKey :=
  dim_location_dup_check_unreachable dupLocationTable dupLocationSchema rfl
/-- C4 (amended): whenever any Integrity Validator gate fires, qa_and_export
returns an error — naming the failed check — and no output file is written;
the grain error and the null-join-key errors are parameterized by the
violation count (the dimension-duplicate errors are not). -/
theorem qa_failure_all_or_nothing (s : StarSchema) (h : qaAnyFail s = true) :
    (∃ e, qa_and_export s = Except.error e) ∧
    (∀ fs, qa_and_export s ≠ Except.ok fs) ∧
    (0 < grainDupCount s →
      qa_and_export s = Except.error (QAError.grainBroken (grainDupCount s))) ∧
    (grainDupCount s = 0 → 0 < locKeyNullCount s →
      qa_and_export s = Except.error
        (QAError.nullJoinKeys ("LocationKey") (locKeyNullCount s))) := by
  have herr : ∃ e, qa_and_export s = Except.error e := by
    rw [qa_and_export]
    split_ifs with h1 h2 h3 h4 h5
    · exact ⟨_, rfl⟩
    · exact ⟨_, rfl⟩
    · exact ⟨_, rfl⟩
    · exact ⟨_, rfl⟩
    · exact ⟨_, rfl⟩
    · exfalso
      simp only [qaAnyFail, Bool.or_eq_true, decide_eq_true_eq] at h
      rcases h with ((((h | h) | h) | h) | h) <;> omega
  refine ⟨herr, ?_, ?_, ?_⟩
  · intro fs hok
    obtain ⟨e, he⟩ := herr
    rw [hok] at he
    cases he
  · intro hg
    rw [qa_and_export, if_pos hg]
  · intro hg0 hl
    rw [qa_and_export, if_neg (by omega), if_pos hl]

/-- C4 counterexample: a table set whose only failing gate is dim_category
uniqueness is rejected with an error whose message names the check but
contains no digit at all, hence not the violation count (which is 1). -/
theorem qa_dimension_error_lacks_count :
    qa_and_export dupCatKeySchema = Except.error QAError.dupCategoryKey ∧
    dimCatDupCount dupCatKeySchema = 1 ∧
    ((errMessage QAError.dupCategoryKey).toList.all fun c => !c.isDigit) = true :=
  ⟨rfl, rfl, rfl⟩

/-- C4 witness: on a table set with duplicated absent request numbers the
validator stops with the count-parameterized grain error and exports
nothing. -/
theorem qa_failure_all_or_nothing_witness :
    qa_and_export absentSrnSchema =
      Except.error (QAError.grainBroken (grainDupCount absentSrnSchema)) :=
  (qa_failure_all_or_nothing absentSrnSchema (by decide)).2.2.1 (by decide)

/-- C10: pandas duplicated() treats NA values as equal, so a fact table with
two or more absent ServiceRequestNumbers has a positive duplicate count and
qa_and_export raises the grain-violation error. -/
theorem grain_check_counts_absent_srn (s : StarSchema)
    (h : 2 ≤ countVal none (s.fact.map fun r => r.serviceRequestNumber)) :
    0 < grainDupCount s ∧
    qa_and_export s = Except.error (QAError.grainBroken (grainDupCount s)) := by
  have hpos : 0 < grainDupCount s := by
    rw [grainDupCount]
    exact dupCount_pos_of_two _ none h
  exact ⟨hpos, by rw [qa_and_export, if_pos hpos]⟩

/-- C10 witness: two fact rows with absent request numbers trigger the grain
error even though no concrete request-number value repeats. -/
theorem grain_check_counts_absent_srn_witness :
    0 < grainDupCount absentSrnSchema ∧
    qa_and_export absentSrnSchema =
      Except.error (QAError.grainBroken (grainDupCount absentSrnSchema)) :=
  grain_check_counts_absent_srn absentSrnSchema (by decide)

/-- C7: an input file lacking the Latitude column (one of the six columns
the dim_location projection selects unguardedly) is cleaned with the field
absent on every record as the spec requires, yet build_star_schema raises
the KeyError instead of completing. -/
theorem build_star_schema_missing_latitude_raises :
    build_star_schema (load_and_clean rawNoLatTable) =
      Except.error dimLocationMissingColumns ∧
    ((load_and_clean rawNoLatTable).rows.map fun r => r.latitude) = [none] :=
  ⟨rfl, rfl⟩

/-- C8: a council district cell that is absent or non-numeric (here: its
column missing, its cell NA, or its text unparsable) stays absent in the
canonical record and in the fact row, which passes the cleaned value
through unchanged. -/
theorem council_district_no_fabrication (p : ColPresence) (r : RawRow)
    (h : ((if p.hasCouncilDistrict then r.councilDistrict else none).bind parseNum)
      = none) :
    (cleanRow p r).councilDistrict = none ∧
    (mkFactRow (cleanRow p r)).councilDistrict = none ∧
    (mkFactRow (cleanRow p r)).councilDistrict = (cleanRow p r).councilDistrict := by
  have hc : (cleanRow p r).councilDistrict =
      (if p.hasCouncilDistrict then r.councilDistrict else none).bind parseNum := by
    show (if p.hasCouncilDistrict then r.councilDistrict.bind parseNum else none) = _
    by_cases hp : p.hasCouncilDistrict <;> simp [hp]
  exact ⟨hc.trans h, hc.trans h, rfl⟩

/-- C8 witness: the unparsable council district "N/A" stays absent in both
the canonical record and the fact row. -/
theorem council_district_no_fabrication_witness :
    (cleanRow presAll rawBadCouncilRow).councilDistrict = none ∧
    (mkFactRow (cleanRow presAll rawBadCouncilRow)).councilDistrict = none ∧
    (mkFactRow (cleanRow presAll rawBadCouncilRow)).councilDistrict =
      (cleanRow presAll rawBadCouncilRow).councilDistrict :=
  council_district_no_fabrication presAll rawBadCouncilRow (by decide)
